import Mathlib

/-!
Verification of the spotify-ambient-display server core
(src/server/api.js, src/server/index.js) against its design spec.

The data model and the operations below are shallow embeddings of the
JavaScript source.  Modules that the source imports but that are not part
of the checked tree (src/server/memo.js, src/server/utils.js,
src/server/constants.js) are modelled from the spec; each such definition
says so in its doc comment.
-/

namespace Spotify

/-! ## Data model (src/server/api.js, lines 18-175) -/

/-- Image object as delivered by the provider: url, width, height. -/
structure Image where
  url : String
  width : Nat
  height : Nat
deriving DecidableEq, Repr

/-- Pair of images picked from an image list: JS `{full: images.at(0), low: images.at(-1)}`. -/
structure ImagePair where
  full : Option Image
  low : Option Image
deriving DecidableEq, Repr

/-- Result shape of `normalisedData` (api.js lines 27-36). -/
structure Normalised where
  id : String
  title : String
  subtitle : String
  uri : String
  image : ImagePair
deriving DecidableEq, Repr

/-- Embedding of `normalisedData` (api.js lines 27-36); JS `images.at(0)` is
the head of the list and `images.at(-1)` its last element. -/
def normalisedData (id name subtitle uri : String) (images : List Image) : Normalised :=
  { id := id, title := name, subtitle := subtitle, uri := uri,
    image := { full := images.head?, low := images.getLast? } }

/-- Artist reference inside a track: only the name is read. -/
structure ArtistRef where
  name : String
deriving DecidableEq, Repr

/-- Album as nested inside a track (`track.album`): name and images are read. -/
structure AlbumLite where
  name : String
  images : List Image
deriving DecidableEq, Repr

/-- Provider track object, restricted to the fields `trim.track` reads
(api.js lines 44-65) plus `duration_ms`, which `info.get` reads. -/
structure Track where
  id : String
  name : String
  artists : List ArtistRef
  album : AlbumLite
  track_number : Nat
  uri : String
  duration_ms : Nat
deriving DecidableEq, Repr

/-- JS `track.artists[0].name`; totalised with "" for the empty list
(the source would throw there). -/
def firstArtistName : List ArtistRef → String
  | a :: _ => a.name
  | [] => ""

/-- Result shape of `trim.track` (api.js lines 44-65). -/
structure TrackItem where
  id : String
  normalised : Normalised
  title : String
  album : String
  artist : String
  artists : List String
  number : Nat
  uri : String
  image : ImagePair
deriving DecidableEq, Repr

/-- Embedding of `trim.track` (api.js lines 44-65). -/
def trimTrack (t : Track) : TrackItem :=
  { id := t.id,
    normalised := normalisedData t.id t.name (firstArtistName t.artists) t.uri t.album.images,
    title := t.name,
    album := t.album.name,
    artist := firstArtistName t.artists,
    artists := t.artists.map (fun a => a.name),
    number := t.track_number,
    uri := t.uri,
    image := { full := t.album.images.head?, low := t.album.images.getLast? } }

/-- Playlist owner: only `display_name` is read. -/
structure PlaylistOwner where
  display_name : String
deriving DecidableEq, Repr

/-- Playlist track summary: only `total` is read. -/
structure PlaylistTracks where
  total : Nat
deriving DecidableEq, Repr

/-- Provider playlist object, restricted to the fields `trim.playlist` reads. -/
structure Playlist where
  id : String
  name : String
  owner : PlaylistOwner
  tracks : PlaylistTracks
  uri : String
  images : List Image
deriving DecidableEq, Repr

/-- Result shape of `trim.playlist` (api.js lines 71-90). -/
structure PlaylistItem where
  id : String
  normalised : Normalised
  title : String
  owner : String
  total : Nat
  uri : String
  image : ImagePair
deriving DecidableEq, Repr

/-- Embedding of `trim.playlist` (api.js lines 71-90). -/
def trimPlaylist (p : Playlist) : PlaylistItem :=
  { id := p.id,
    normalised := normalisedData p.id p.name p.owner.display_name p.uri p.images,
    title := p.name,
    owner := p.owner.display_name,
    total := p.tracks.total,
    uri := p.uri,
    image := { full := p.images.head?, low := p.images.getLast? } }

/-- Provider artist object, restricted to the fields `trim.artist` reads. -/
structure Artist where
  id : String
  name : String
  uri : String
  images : List Image
deriving DecidableEq, Repr

/-- Result shape of `trim.artist` (api.js lines 96-107). -/
structure ArtistItem where
  id : String
  normalised : Normalised
  title : String
  uri : String
  image : ImagePair
deriving DecidableEq, Repr

/-- Embedding of `trim.artist` (api.js lines 96-107). -/
def trimArtist (a : Artist) : ArtistItem :=
  { id := a.id,
    normalised := normalisedData a.id a.name "" a.uri a.images,
    title := a.name,
    uri := a.uri,
    image := { full := a.images.head?, low := a.images.getLast? } }

/-- Provider album object, restricted to the fields `trim.album` reads. -/
structure Album where
  id : String
  name : String
  release_date : String
  uri : String
  total_tracks : Nat
  images : List Image
deriving DecidableEq, Repr

/-- Result shape of `trim.album` (api.js lines 113-132). -/
structure AlbumItem where
  normalised : Normalised
  id : String
  title : String
  release : String
  uri : String
  total : Nat
  image : ImagePair
deriving DecidableEq, Repr

/-- Splitter for JS `String.prototype.split(sep)` with a one-character
separator, written by structural recursion on the character list so that
concrete instances reduce in the kernel. -/
def splitCharAux (sep : Char) : List Char → List (List Char)
  | [] => [[]]
  | c :: rest =>
      let r := splitCharAux sep rest
      if c = sep then [] :: r
      else (c :: r.headD []) :: r.tail

/-- JS `s.split(sep)` for a one-character separator `sep`. -/
def splitChar (sep : Char) (s : String) : List String :=
  (splitCharAux sep s.toList).map (fun l => String.mk l)

/-- JS `album.release_date.split('-').shift()`: the text before the first dash. -/
def releaseYear (releaseDate : String) : String :=
  (splitChar '-' releaseDate).headD ""

/-- Embedding of `trim.album` (api.js lines 113-132). -/
def trimAlbum (al : Album) : AlbumItem :=
  { normalised := normalisedData al.id al.name (releaseYear al.release_date) al.uri al.images,
    id := al.id,
    title := al.name,
    release := al.release_date,
    uri := al.uri,
    total := al.total_tracks,
    image := { full := al.images.head?, low := al.images.getLast? } }

/-- Provider episode object, restricted to the fields `trim.episode` reads
plus `duration_ms` (read by `info.get`); `showName` stands for the JS
nested access `episode.show.name` (`show` is a Lean keyword). -/
structure Episode where
  id : String
  name : String
  showName : String
  uri : String
  images : List Image
  release_date : String
  duration_ms : Nat
deriving DecidableEq, Repr

/-- Result shape of `trim.episode` (api.js lines 138-157). -/
structure EpisodeItem where
  id : String
  normalised : Normalised
  title : String
  showName : String
  release : String
  uri : String
  image : ImagePair
deriving DecidableEq, Repr

/-- Embedding of `trim.episode` (api.js lines 138-157). -/
def trimEpisode (e : Episode) : EpisodeItem :=
  { id := e.id,
    normalised := normalisedData e.id e.name e.showName e.uri e.images,
    title := e.name,
    showName := e.showName,
    release := e.release_date,
    uri := e.uri,
    image := { full := e.images.head?, low := e.images.getLast? } }

/-- Provider show object, restricted to the fields `trim.show` reads. -/
structure PodcastShow where
  id : String
  name : String
  uri : String
  images : List Image
deriving DecidableEq, Repr

/-- Result shape of `trim.show` (api.js lines 163-174). -/
structure ShowItem where
  id : String
  normalised : Normalised
  title : String
  uri : String
  image : ImagePair
deriving DecidableEq, Repr

/-- Embedding of `trim.show` (api.js lines 163-174). -/
def trimShow (s : PodcastShow) : ShowItem :=
  { id := s.id,
    normalised := normalisedData s.id s.name "" s.uri s.images,
    title := s.name,
    uri := s.uri,
    image := { full := s.images.head?, low := s.images.getLast? } }

/-- Embedding of `deconstructUri` (api.js lines 181-188):
JS `const [_, type, id] = uri.split(':')`, so the type is the second
colon-separated field and the id the third; a missing field (JS
`undefined`) is totalised to "", which falls into the same default
switch branch as `undefined` does in the source. -/
def deconstructUri (uri : String) : String × String :=
  let parts := splitChar ':' uri
  ((parts.get? 1).getD "", (parts.get? 2).getD "")

/-! ## The request-deduplicating cache

Modelled from the spec: `src/server/api.js` imports `memo` from
`src/server/memo.js`, which is not part of the checked tree; the cache is
therefore embedded from spec sections 3 (CacheEntry) and 4.1 (resolve).
The spec makes each read-check / write-start / write-complete sequence
atomic (section 5), so the concurrent behaviour is modelled as a state
machine whose atomic steps are: a caller arriving at `resolve`
(`resolveStart`), and the single in-flight fetch settling with success
(`settleSuccess`) or failure (`settleFailure`).  Waiters are identified by
caller ids (`Nat`). -/

/-- CacheEntry from spec section 3: a resolved value with its absolute
expiry instant, and the waiters attached to the at-most-one in-flight
resolution for the key. -/
structure Entry (V : Type) where
  value : Option (V × Nat)
  pending : Option (List Nat)
deriving DecidableEq, Repr

/-- Cache state: the key-to-entry mapping, as an association list. -/
abbrev MemoState (V : Type) := List (String × Entry V)

/-- Lookup of a key's entry in the cache map. -/
def mlookup {V : Type} : MemoState V → String → Option (Entry V)
  | [], _ => none
  | (k, e) :: rest, key => if k = key then some e else mlookup rest key

/-- Replacement (or insertion) of a key's entry in the cache map. -/
def mset {V : Type} : MemoState V → String → Entry V → MemoState V
  | [], key, e => [(key, e)]
  | (k, e0) :: rest, key, e =>
      if k = key then (key, e) :: rest else (k, e0) :: mset rest key e

/-- Entry for a key, with the never-resolved, nothing-pending entry as
default for an absent key. -/
def entryOf {V : Type} (s : MemoState V) (k : String) : Entry V :=
  (mlookup s k).getD { value := none, pending := none }

/-- Lazy expiry from spec section 3: a stored value is visible only
strictly before its `expiresAt` instant. -/
def freshValue {V : Type} : Option (V × Nat) → Nat → Option V
  | some (v, exp), now => if now < exp then some v else none
  | none, _ => none

/-- What a caller arriving at `resolve` observes: a fresh cached value, an
attachment to an already in-flight resolution, or the start of a new fetch. -/
inductive StartResult (V : Type)
  | hit (v : V)
  | attached
  | started
deriving DecidableEq, Repr

/-- Atomic arrival of one caller at `resolve(key, fetcher)`, spec section
4.1 steps 1-3: serve a fresh value; else attach to the in-flight
resolution; else start the fetch (the starter is recorded as a waiter of
the resolution it starts). -/
def resolveStart {V : Type} (s : MemoState V) (now : Nat) (k : String) (caller : Nat) :
    MemoState V × StartResult V :=
  match freshValue (entryOf s k).value now with
  | some v => (s, .hit v)
  | none =>
      match (entryOf s k).pending with
      | some ws =>
          (mset s k { value := (entryOf s k).value, pending := some (ws ++ [caller]) },
           .attached)
      | none =>
          (mset s k { value := (entryOf s k).value, pending := some [caller] }, .started)

/-- Atomic successful settling of the in-flight fetch for a key, spec
section 4.1 step 3: store the value with expiry `now + ttl`, clear the
in-flight marker, and deliver the value to every waiter (the returned
pairs). -/
def settleSuccess {V : Type} (s : MemoState V) (now ttl : Nat) (k : String) (v : V) :
    MemoState V × List (Nat × V) :=
  match (entryOf s k).pending with
  | some ws =>
      (mset s k { value := some (v, now + ttl), pending := none },
       ws.map (fun c => (c, v)))
  | none => (s, [])

/-- Atomic failed settling of the in-flight fetch for a key, spec sections
4.1 and 7: clear the in-flight marker, store no value, and deliver the
same failure to every waiter (the returned caller ids). -/
def settleFailure {V : Type} (s : MemoState V) (k : String) : MemoState V × List Nat :=
  match (entryOf s k).pending with
  | some ws =>
      (mset s k { value := (entryOf s k).value, pending := none }, ws)
  | none => (s, [])

/-- Counts a `started` outcome as one fetcher invocation. -/
def startedFlag {V : Type} : StartResult V → Nat
  | .started => 1
  | _ => 0

/-- Interleaved arrival of a list of callers at `resolve` for one key:
final state and the number of fetcher invocations started. -/
def runStarts {V : Type} (now : Nat) (k : String) : MemoState V → List Nat → MemoState V × Nat
  | s, [] => (s, 0)
  | s, c :: cs =>
      let p := resolveStart s now k c
      let q := runStarts now k p.1 cs
      (q.1, startedFlag p.2 + q.2)

/-- Sequential `memo.use(key, fetcher)` as one call (spec section 4.1):
serve a fresh value without invoking the fetcher; otherwise invoke it, and
on success store the value with expiry `now + ttl`, on failure propagate
the error leaving the cache state unchanged.  Returns the new state, the
outcome, and whether the fetcher was invoked. -/
def memoUse {V E : Type} (s : MemoState V) (now ttl : Nat) (k : String)
    (fetch : Except E V) : MemoState V × Except E V × Bool :=
  match freshValue (entryOf s k).value now with
  | some v => (s, .ok v, false)
  | none =>
      match fetch with
      | .ok v => (mset s k { value := some (v, now + ttl), pending := none }, .ok v, true)
      | .error err => (s, .error err, true)

/-! ## Context resolution (src/server/api.js, lines 196-240 and 414-425) -/

/-- Result of `getContext` (api.js lines 196-240): a trimmed item tagged
with its type, or the empty object `{}` (the default branch and the catch
branch); `showc` is the show case (`show` is a Lean keyword). -/
inductive Ctx
  | playlist (item : PlaylistItem)
  | artist (item : ArtistItem)
  | album (item : AlbumItem)
  | showc (item : ShowItem)
  | empty
deriving DecidableEq, Repr

/-- Provider surface used by `getContext`: the four catalog lookups, each
of which can fail (error codes as `Nat`). -/
structure CtxSdk where
  getPlaylist : String → Except Nat Playlist
  getArtist : String → Except Nat Artist
  getAlbum : String → Except Nat Album
  getShow : String → Except Nat PodcastShow
deriving Inhabited

/-- Embedding of `getContext` (api.js lines 196-240): switch on the URI
type, trim the provider object, and — crucially — catch every provider
failure and return the empty object `{}` instead of propagating the
error.  The function is total: the fetcher built from it never fails. -/
def getContext (sdk : CtxSdk) (uri : String) : Ctx :=
  let td := deconstructUri uri
  if td.1 = "playlist" then
    match sdk.getPlaylist td.2 with
    | .ok p => .playlist (trimPlaylist p)
    | .error _ => .empty
  else if td.1 = "artist" then
    match sdk.getArtist td.2 with
    | .ok a => .artist (trimArtist a)
    | .error _ => .empty
  else if td.1 = "album" then
    match sdk.getAlbum td.2 with
    | .ok al => .album (trimAlbum al)
    | .error _ => .empty
  else if td.1 = "show" then
    match sdk.getShow td.2 with
    | .ok sh => .showc (trimShow sh)
    | .error _ => .empty
  else .empty

/-- Embedding of `SpotifyInteract.context.get` (api.js lines 419-424):
`memo.use(uri, () => getContext(sdk, uri))` — the memo key is the raw URI
and the fetcher is `getContext`, which always succeeds.  Returns the new
cache state, the context, and whether the fetcher was invoked. -/
def contextGet (st : MemoState Ctx) (now ttl : Nat) (sdk : CtxSdk) (uri : String) :
    MemoState Ctx × Ctx × Bool :=
  match memoUse (E := Nat) st now ttl uri (Except.ok (getContext sdk uri)) with
  | (st2, .ok c, invoked) => (st2, c, invoked)
  | (st2, .error _, invoked) => (st2, .empty, invoked)

/-! ## Current playback info (src/server/api.js, lines 433-456) -/

/-- The `track.item` of the currently-playing response: a track or an
episode; the source's `currently_playing_type` string is `"episode"`
exactly on the episode case. -/
inductive PlayingItem
  | track (t : Track)
  | episode (e : Episode)
deriving DecidableEq, Repr

/-- Currently-playing snapshot, restricted to the fields `info.get` reads;
`context_uri` stands for the JS nested access `track.context.uri`. -/
structure PlaybackSnapshot where
  is_playing : Bool
  item : PlayingItem
  context_uri : String
  progress_ms : Nat
deriving DecidableEq, Repr

/-- JS `track.item.duration_ms`. -/
def itemDuration : PlayingItem → Nat
  | .track t => t.duration_ms
  | .episode e => e.duration_ms

/-- View of the playing item produced by `info.get`: JS
`track.currently_playing_type === 'episode' ? trim.episode(track.item) :
trim.track(track.item)`. -/
inductive PlayedItemView
  | episode (e : EpisodeItem)
  | track (t : TrackItem)
deriving DecidableEq, Repr

/-- Trim of the playing item by its `currently_playing_type`. -/
def trimItem : PlayingItem → PlayedItemView
  | .episode e => .episode (trimEpisode e)
  | .track t => .track (trimTrack t)

/-- Successful payload of `info.get` (api.js lines 444-455). -/
structure InfoPayload where
  isPlaying : Bool
  track : PlayedItemView
  context : Ctx
  current : Nat
  duration : Nat
deriving DecidableEq, Repr

/-- Response of `info.get`: `{noTrack: true}` when nothing is playing,
else the payload. -/
inductive InfoResponse
  | noTrack
  | info (p : InfoPayload)
deriving DecidableEq, Repr

/-- Provider surface used by `info.get`: the direct currently-playing call
(which may fail, or report nothing playing) and the catalog surface used
by the nested context resolution. -/
structure InfoSdk where
  currentlyPlaying : Except Nat (Option PlaybackSnapshot)
  ctx : CtxSdk

/-- Embedding of `SpotifyInteract.info.get` (api.js lines 433-456).  The
snapshot is obtained by the direct provider call
`sdk.player.getCurrentlyPlayingTrack(...)` — not through the memo — and
only the nested context resolution goes through the memo, keyed by the
playing context URI.  Returns the outcome (the call rejects when the
provider call rejects) together with a trace: the number of direct
snapshot provider calls made, and the list of memo keys resolved through
the cache. -/
def infoGet (st : MemoState Ctx) (now ttl : Nat) (sdk : InfoSdk) :
    Except Nat (MemoState Ctx × InfoResponse) × Nat × List String :=
  match sdk.currentlyPlaying with
  | .error e => (.error e, 1, [])
  | .ok none => (.ok (st, .noTrack), 1, [])
  | .ok (some snap) =>
      let r := contextGet st now ttl sdk.ctx snap.context_uri
      (.ok (r.1, .info
        { isPlaying := snap.is_playing,
          track := trimItem snap.item,
          context := r.2.1,
          current := snap.progress_ms,
          duration := itemDuration snap.item }), 1, [snap.context_uri])

/-! ## The centralised polling tick (src/server/api.js, lines 644-658) -/

/-- Observable outcome of one scheduler tick: whether `info.get` was
invoked, which connected clients the info message was emitted to, the
emitted payload, the trace of direct snapshot provider calls and memo keys
used, and whether the tick raised. -/
structure TickResult where
  fetched : Bool
  emittedTo : List Nat
  payload : Option InfoResponse
  snapshotCalls : Nat
  cacheKeys : List String
  failed : Bool
deriving DecidableEq, Repr

/-- The tick that does nothing: no fetch, no emission, no failure. -/
def noopTick : TickResult :=
  { fetched := false, emittedTo := [], payload := none,
    snapshotCalls := 0, cacheKeys := [], failed := false }

/-- Embedding of the `asyncInterval` callback (api.js lines 645-657):
return silently when `sdk.current` is null; when the connected-client
count is positive, call `SpotifyInteract.info.get(sdk.current)` and
`io.emit('info', info)` — a broadcast received by every connected client;
otherwise skip the fetch.  A rejection of `info.get` makes the tick fail
after the fetch, before any emission, leaving the cache state of the tick
unchanged (the memo mutation happens only on the successful path of the
model's `infoGet`). -/
def tick (sdkCurrent : Option InfoSdk) (clients : List Nat) (st : MemoState Ctx)
    (now ttl : Nat) : MemoState Ctx × TickResult :=
  match sdkCurrent with
  | none => (st, noopTick)
  | some sdk =>
      if 0 < clients.length then
        match infoGet st now ttl sdk with
        | (.ok (st2, resp), calls, keys) =>
            (st2, { fetched := true, emittedTo := clients, payload := some resp,
                    snapshotCalls := calls, cacheKeys := keys, failed := false })
        | (.error _, calls, keys) =>
            (st, { fetched := true, emittedTo := [], payload := none,
                   snapshotCalls := calls, cacheKeys := keys, failed := true })
      else (st, noopTick)

/-! ## The polling loop driver

Modelled from the spec: `asyncInterval` lives in `src/server/utils.js`,
which is not part of the checked tree.  Spec sections 4.2 and 7 state that
a failure inside a tick is caught and logged at the tick boundary and
never terminates the background task, and that ticks do not overlap (the
next one is scheduled only after the current one finishes). -/

/-- Liveness state of the polling loop. -/
inductive LoopStatus
  | running
  | terminated
deriving DecidableEq, Repr

/-- Loop transition at a tick boundary.  The tick's failure flag is caught
there (spec sections 4.2 and 7), so a running loop stays running whether
or not the tick failed; only an already-terminated loop stays terminated. -/
def loopSurvives (st : LoopStatus) (failed : Bool) : LoopStatus :=
  match st, failed with
  | .terminated, _ => .terminated
  | .running, _ => .running

/-- Sequential execution of `n` scheduler ticks starting at tick index
`i`, threading the cache state; each tick reads the session slot and the
connected clients from its environment, and the loop continues past a
tick exactly when `loopSurvives` keeps it running.  Returns the final
cache state, the trace of executed ticks, and the loop status. -/
def schedulerRun (sdkEnv : Nat → Option InfoSdk) (clientsEnv : Nat → List Nat)
    (ttl : Nat) : Nat → Nat → MemoState Ctx → MemoState Ctx × List TickResult × LoopStatus
  | _, 0, st => (st, [], .running)
  | i, n + 1, st =>
      let r := tick (sdkEnv i) (clientsEnv i) st i ttl
      match loopSurvives .running r.2.failed with
      | .terminated => (r.1, [r.2], .terminated)
      | .running =>
          let rest := schedulerRun sdkEnv clientsEnv ttl (i + 1) n r.1
          (rest.1, r.2 :: rest.2.1, rest.2.2)

/-! ## Options surface (src/server/api.js, lines 10-16 and 505-509, 644-658) -/

/-- JavaScript option value: the option objects in play hold booleans,
numbers and strings. -/
inductive JsVal
  | bool (b : Bool)
  | nat (n : Nat)
  | str (s : String)
deriving DecidableEq, Repr

/-- JavaScript object, as the association list of its own properties. -/
abbrev JsObj := List (String × JsVal)

/-- Property lookup on a JavaScript object. -/
def objGet : JsObj → String → Option JsVal
  | [], _ => none
  | (k, v) :: rest, key => if k = key then some v else objGet rest key

/-- Embedding of `DEFAULT_OPTS` (api.js lines 11-16). -/
def DEFAULT_OPTS : JsObj :=
  [("market", .str "GB"),
   ("searchQueryLimit", .nat 10),
   ("centralisedPolling", .bool true),
   ("centralisedPollingTimer", .nat 5000)]

/-- Property lookup on the merged options `{...DEFAULT_OPTS, ...opts}`
(api.js lines 506-509): a property supplied by the caller wins, else the
default applies. -/
def optionsGet (opts : JsObj) (key : String) : Option JsVal :=
  match objGet opts key with
  | some v => some v
  | none => objGet DEFAULT_OPTS key

/-- JavaScript truthiness of an (optional) option value. -/
def truthy : Option JsVal → Bool
  | none => false
  | some (.bool b) => b
  | some (.nat n) => !(n == 0)
  | some (.str s) => !(s == "")

/-- Scheduling decision of `run` (api.js lines 644-657): when the merged
`centralisedPolling` option is truthy, `asyncInterval` is started with the
merged `centralisedPollingTimer` as its cadence (returned as `some`);
otherwise no polling loop is started (`none`). -/
def runPollingConfig (opts : JsObj) : Option JsVal :=
  if truthy (optionsGet opts "centralisedPolling") then
    optionsGet opts "centralisedPollingTimer"
  else none

/-! ## Request pipeline (src/server/index.js, lines 67-98) and /api/health -/

/-- Provider session handle; its structure is irrelevant to the pipeline. -/
abbrev Sdk := Unit

/-- Request as seen by the /api pipeline: only the attached `req.sdk`
matters to the middleware and the health handler. -/
structure Req where
  sdk : Option Sdk
deriving DecidableEq, Repr

/-- Value of `ERROR.UNAUTHENTICATED`.  Modelled from the spec:
`src/server/constants.js` is not part of the checked tree; the claims use
the constant symbolically, so its concrete text is inessential. -/
def UNAUTHENTICATED : String := "UNAUTHENTICATED"

/-- JSON response body of the routes in play; a field is `none` when the
handler does not set it. -/
structure ApiResponse where
  error : Option Bool := none
  message : Option String := none
  success : Option Bool := none
  authenticated : Option Bool := none
deriving DecidableEq, Repr

/-- Response sent by `sdkProtect` when `req.sdk` is falsy
(index.js lines 83-88). -/
def unauthenticatedResponse : ApiResponse :=
  { error := some true, message := some UNAUTHENTICATED }

/-- Outcome of a middleware: respond immediately, or pass the request on. -/
inductive MWResult
  | respond (r : ApiResponse)
  | next (req : Req)
deriving DecidableEq, Repr

/-- Embedding of the sdk-attaching middleware (index.js lines 67-72):
`req.sdk = sdk.current`. -/
def attachSdk (sdkCurrent : Option Sdk) (req : Req) : Req :=
  { req with sdk := sdkCurrent }

/-- Embedding of `sdkProtect` (index.js lines 82-91): `if (!req.sdk)`
respond `{error: true, message: ERROR.UNAUTHENTICATED}`, else `next()`. -/
def sdkProtect (req : Req) : MWResult :=
  if req.sdk.isNone then .respond unauthenticatedResponse
  else .next req

/-- Pipeline of a request to the /api mount (index.js lines 67-72 and 98):
the sdk-attaching middleware runs, then `sdkProtect`, then — only if
`sdkProtect` called `next()` — the matched route handler.  Returns the
response and whether the route handler was invoked (provider operations
happen only inside route handlers). -/
def apiMount (sdkCurrent : Option Sdk) (handler : Req → ApiResponse) (req : Req) :
    ApiResponse × Bool :=
  let req2 := attachSdk sdkCurrent req
  match sdkProtect req2 with
  | .respond r => (r, false)
  | .next reqNext => (handler reqNext, true)

/-- Embedding of the /health route handler (api.js line 642):
`res.json({success: true, authenticated: !!req.sdk})`. -/
def healthHandler (req : Req) : ApiResponse :=
  { success := some true, authenticated := some req.sdk.isSome }

/-! ## Queue add (src/server/api.js, lines 370-385) -/

/-- Item of the user's queue: only `uri` is read by `queue.add`. -/
structure QueueItem where
  uri : String
deriving DecidableEq, Repr

/-- Observable outcome of `queue.add`: the returned `success` flag and the
list of URIs passed to `addItemToPlaybackQueue`. -/
structure QueueAddResult where
  success : Bool
  addCalls : List String
deriving DecidableEq, Repr

/-- Embedding of `SpotifyInteract.queue.add` (api.js lines 370-385): read
the user's queue; if some queued item already has the URI, return
`{success: false}` without calling `addItemToPlaybackQueue`; otherwise
call `addItemToPlaybackQueue(uri)` once and return `{success: true}`. -/
def queueAdd (queue : List QueueItem) (uri : String) : QueueAddResult :=
  if queue.any (fun item => item.uri == uri) then
    { success := false, addCalls := [] }
  else
    { success := true, addCalls := [uri] }

/-! ## Concrete sample inputs used by the closed counterexamples and
witnesses -/

/-- Catalog surface on which every provider lookup fails with error 500. -/
def failingCtxSdk : CtxSdk :=
  { getPlaylist := fun _ => .error 500,
    getArtist := fun _ => .error 500,
    getAlbum := fun _ => .error 500,
    getShow := fun _ => .error 500 }

/-- Sample provider track. -/
def sampleTrack : Track :=
  { id := "t1", name := "Song", artists := [{ name := "Some Artist" }],
    album := { name := "Some Album", images := [] },
    track_number := 1, uri := "spotify:track:t1", duration_ms := 180000 }

/-- Sample currently-playing snapshot: the sample track playing from a
playlist context. -/
def sampleSnap : PlaybackSnapshot :=
  { is_playing := true, item := .track sampleTrack,
    context_uri := "spotify:playlist:abc", progress_ms := 10 }

/-- Sample provider surface: the snapshot call succeeds with `sampleSnap`,
and every catalog lookup fails. -/
def sampleInfoSdk : InfoSdk :=
  { currentlyPlaying := .ok (some sampleSnap), ctx := failingCtxSdk }

/-! ## Cache map lemmas -/

/-- Looking up a key right after setting it yields the entry just set. -/
theorem mlookup_mset_self {V : Type} (s : MemoState V) (k : String) (e : Entry V) :
    mlookup (mset s k e) k = some e := by
  induction s with
  | nil => simp [mset, mlookup]
  | cons hd tl ih =>
      obtain ⟨k0, e0⟩ := hd
      by_cases h : k0 = k
      · simp [mset, mlookup, h]
      · simp [mset, mlookup, h, ih]

/-- Entry view of `mlookup_mset_self`. -/
theorem entryOf_mset_self {V : Type} (s : MemoState V) (k : String) (e : Entry V) :
    entryOf (mset s k e) k = e := by
  simp [entryOf, mlookup_mset_self]

/-- Every caller arriving while a resolution is in flight attaches to it:
no further fetch is started and the waiter list grows by exactly the
arrivals, with the stored value left untouched. -/
theorem runStarts_attached {V : Type} (now : Nat) (k : String) :
    ∀ (cs : List Nat) (s : MemoState V) (ws : List Nat),
      freshValue (entryOf s k).value now = none →
      (entryOf s k).pending = some ws →
      (runStarts now k s cs).2 = 0 ∧
      entryOf (runStarts now k s cs).1 k =
        { value := (entryOf s k).value, pending := some (ws ++ cs) } := by
  intro cs
  induction cs with
  | nil =>
      intro s ws hv hp
      refine ⟨rfl, ?_⟩
      simp only [runStarts, List.append_nil]
      rw [← hp]
  | cons c cs ih =>
      intro s ws hv hp
      have hstep : resolveStart s now k c =
          (mset s k { value := (entryOf s k).value, pending := some (ws ++ [c]) },
           StartResult.attached) := by
        simp [resolveStart, hv, hp]
      have hE : entryOf (mset s k
          { value := (entryOf s k).value, pending := some (ws ++ [c]) }) k =
          { value := (entryOf s k).value, pending := some (ws ++ [c]) } :=
        entryOf_mset_self ..
      have hrec := ih (mset s k
          { value := (entryOf s k).value, pending := some (ws ++ [c]) }) (ws ++ [c])
          (by rw [hE]; exact hv) (by rw [hE])
      rw [hE] at hrec
      simp only [runStarts, hstep, startedFlag]
      exact ⟨by rw [Nat.zero_add, hrec.1], by rw [hrec.2]; simp⟩

/-- A first caller arriving at a key with no fresh value and nothing in
flight starts exactly one fetch, and every further concurrent caller
attaches to that single resolution. -/
theorem runStarts_fresh_start {V : Type} (now : Nat) (k : String) (s : MemoState V)
    (c : Nat) (cs : List Nat)
    (hv : freshValue (entryOf s k).value now = none)
    (hp : (entryOf s k).pending = none) :
    (runStarts now k s (c :: cs)).2 = 1 ∧
    entryOf (runStarts now k s (c :: cs)).1 k =
      { value := (entryOf s k).value, pending := some (c :: cs) } := by
  have hstep : resolveStart s now k c =
      (mset s k { value := (entryOf s k).value, pending := some [c] },
       StartResult.started) := by
    simp [resolveStart, hv, hp]
  have hE : entryOf (mset s k
      { value := (entryOf s k).value, pending := some [c] }) k =
      { value := (entryOf s k).value, pending := some [c] } :=
    entryOf_mset_self ..
  have hrec := runStarts_attached now k cs
      (mset s k { value := (entryOf s k).value, pending := some [c] }) [c]
      (by rw [hE]; exact hv) (by rw [hE])
  rw [hE] at hrec
  simp only [runStarts, hstep, startedFlag]
  exact ⟨by rw [hrec.1], by rw [hrec.2]; simp⟩

/-- C1: if N callers concurrently invoke the cache's resolve operation with
the same key while no non-expired value is stored and nothing is in flight
for it, the fetcher is started exactly once (and never more than once at
any prefix of the arrival interleaving), and settling the single in-flight
resolution delivers the same value — or the same failure — to all N
callers. -/
theorem memo_single_flight_dedup {V : Type} (s : MemoState V) (now tset ttl : Nat)
    (k : String) (v : V) (c : Nat) (cs : List Nat)
    (hv : freshValue (entryOf s k).value now = none)
    (hp : (entryOf s k).pending = none) :
    (runStarts now k s (c :: cs)).2 = 1 ∧
    (∀ pre post : List Nat, c :: cs = pre ++ post → (runStarts now k s pre).2 ≤ 1) ∧
    (settleSuccess (runStarts now k s (c :: cs)).1 tset ttl k v).2 =
      (c :: cs).map (fun w => (w, v)) ∧
    (settleFailure (runStarts now k s (c :: cs)).1 k).2 = c :: cs := by
  obtain ⟨hcount, hentry⟩ := runStarts_fresh_start now k s c cs hv hp
  refine ⟨hcount, ?_, ?_, ?_⟩
  · intro pre post hsplit
    cases pre with
    | nil => simp [runStarts]
    | cons c2 pre2 =>
        rw [List.cons_append] at hsplit
        obtain ⟨rfl, -⟩ : c = c2 ∧ cs = pre2 ++ post := by
          exact ⟨(List.cons.injEq .. ▸ hsplit).1, (List.cons.injEq .. ▸ hsplit).2⟩
        rw [(runStarts_fresh_start now k s c pre2 hv hp).1]
  · simp [settleSuccess, hentry]
  · simp [settleFailure, hentry]

/-- Witness for C1 at a concrete input: three concurrent callers on an
empty cache produce one fetch, and all three receive the settled value,
respectively the settled failure. -/
theorem memo_single_flight_dedup_witness :
    freshValue (entryOf ([] : MemoState Nat) "k").value 0 = none ∧
    (entryOf ([] : MemoState Nat) "k").pending = none ∧
    (runStarts 0 "k" ([] : MemoState Nat) [1, 2, 3]).2 = 1 ∧
    (settleSuccess (runStarts 0 "k" ([] : MemoState Nat) [1, 2, 3]).1 5 2000 "k" 42).2 =
      [(1, 42), (2, 42), (3, 42)] ∧
    (settleFailure (runStarts 0 "k" ([] : MemoState Nat) [1, 2, 3]).1 "k").2 = [1, 2, 3] := by
  have h := memo_single_flight_dedup ([] : MemoState Nat) 0 5 2000 "k" 42 1 [2, 3] rfl rfl
  exact ⟨rfl, rfl, h.1, by simpa using h.2.2.1, h.2.2.2⟩

/-- C2 counterexample: a scheduler tick that performs a fetch obtains the
playback snapshot by a direct provider call, not through the cache — its
trace shows one direct snapshot call and the only key resolved through the
cache is the context URI of the playing track, not a fixed snapshot key;
and an info request issued right after, at the same instant and against
the cache state the tick left behind, performs its own direct snapshot
call instead of coalescing. -/
theorem tick_snapshot_not_through_cache_cex :
    (tick (some sampleInfoSdk) [1] [] 0 2000).2.fetched = true ∧
    (tick (some sampleInfoSdk) [1] [] 0 2000).2.snapshotCalls = 1 ∧
    (tick (some sampleInfoSdk) [1] [] 0 2000).2.cacheKeys = ["spotify:playlist:abc"] ∧
    (infoGet (tick (some sampleInfoSdk) [1] [] 0 2000).1 0 2000 sampleInfoSdk).2.1 = 1 := by
  decide

/-- C2 (amended): every scheduler tick that performs a fetch obtains the
current playback snapshot by one direct provider call — not through the
cache — and only the playing context is resolved through the cache, keyed
by the context URI; the fetched result is published to the broadcast sink,
reaching every connected client. -/
theorem tick_snapshot_direct_context_cached (sdk : InfoSdk) (clients : List Nat)
    (st : MemoState Ctx) (now ttl : Nat) (snap : PlaybackSnapshot)
    (hc : clients ≠ [])
    (hs : sdk.currentlyPlaying = Except.ok (some snap)) :
    (tick (some sdk) clients st now ttl).2.fetched = true ∧
    (tick (some sdk) clients st now ttl).2.snapshotCalls = 1 ∧
    (tick (some sdk) clients st now ttl).2.cacheKeys = [snap.context_uri] ∧
    (tick (some sdk) clients st now ttl).2.emittedTo = clients ∧
    (tick (some sdk) clients st now ttl).2.payload.isSome = true := by
  have hlen : 0 < clients.length := by
    cases clients with
    | nil => exact absurd rfl hc
    | cons a l => simp
  simp [tick, infoGet, hs, hlen]

/-- Witness for C2 (amended) at a concrete input. -/
theorem tick_snapshot_direct_context_cached_witness :
    ([1] : List Nat) ≠ [] ∧
    sampleInfoSdk.currentlyPlaying = Except.ok (some sampleSnap) ∧
    (tick (some sampleInfoSdk) [1] [] 0 2000).2.snapshotCalls = 1 ∧
    (tick (some sampleInfoSdk) [1] [] 0 2000).2.emittedTo = [1] := by
  have h := tick_snapshot_direct_context_cached sampleInfoSdk [1] [] 0 2000 sampleSnap
    (by decide) rfl
  exact ⟨by decide, rfl, h.2.1, h.2.2.2.1⟩

/-- C3 counterexample: with every upstream catalog lookup failing, a first
context resolution invokes the fetcher and yields the empty context — and
leaves a cached empty-context entry, so a second resolution of the same
URI within the TTL short-circuits without invoking the fetcher. -/
theorem contextGet_caches_failed_upstream_cex :
    (contextGet [] 0 2000 failingCtxSdk "spotify:playlist:abc").2.2 = true ∧
    (contextGet [] 0 2000 failingCtxSdk "spotify:playlist:abc").2.1 = Ctx.empty ∧
    (contextGet (contextGet [] 0 2000 failingCtxSdk "spotify:playlist:abc").1 1000 2000
        failingCtxSdk "spotify:playlist:abc").2.2 = false ∧
    (contextGet (contextGet [] 0 2000 failingCtxSdk "spotify:playlist:abc").1 1000 2000
        failingCtxSdk "spotify:playlist:abc").2.1 = Ctx.empty := by
  decide

/-- C3 (amended): when the fetcher itself fails the cache stores no value,
the failure is propagated (to the caller, and to every waiter of an
in-flight resolution) with the cache state unchanged, so the next resolve
invokes the fetcher again; however, `getContext` catches upstream
failures and resolves successfully with the empty context, so a failed
upstream fetch during context resolution does leave a cached
empty-context entry that short-circuits later calls for the full TTL. -/
theorem memo_failure_not_cached_but_context_caches_empty :
    (∀ (V E : Type) (s : MemoState V) (now ttl : Nat) (k : String) (err : E),
        freshValue (entryOf s k).value now = none →
        memoUse s now ttl k (Except.error err) = (s, Except.error err, true)) ∧
    (∀ (V : Type) (s : MemoState V) (k : String) (ws : List Nat),
        (entryOf s k).pending = some ws →
        (settleFailure s k).2 = ws ∧
        (entryOf (settleFailure s k).1 k).value = (entryOf s k).value) ∧
    (∀ (sdk : CtxSdk) (uri : String) (e ttl now2 : Nat),
        (deconstructUri uri).1 = "playlist" →
        sdk.getPlaylist (deconstructUri uri).2 = Except.error e →
        now2 < ttl →
        (contextGet [] 0 ttl sdk uri).2.1 = Ctx.empty ∧
        (contextGet [] 0 ttl sdk uri).2.2 = true ∧
        (contextGet (contextGet [] 0 ttl sdk uri).1 now2 ttl sdk uri).2.2 = false ∧
        (contextGet (contextGet [] 0 ttl sdk uri).1 now2 ttl sdk uri).2.1 = Ctx.empty) := by
  refine ⟨?_, ?_, ?_⟩
  · intro V E s now ttl k err hv
    simp [memoUse, hv]
  · intro V s k ws hp
    simp [settleFailure, hp, entryOf_mset_self]
  · intro sdk uri e ttl now2 h1 h2 hlt
    have hctx : getContext sdk uri = Ctx.empty := by
      simp [getContext, h1, h2]
    have hfirst : contextGet [] 0 ttl sdk uri =
        ([(uri, { value := some (Ctx.empty, 0 + ttl), pending := none })], Ctx.empty, true) := by
      simp [contextGet, memoUse, hctx, entryOf, mlookup, freshValue, mset]
    refine ⟨by rw [hfirst], by rw [hfirst], ?_, ?_⟩
    · rw [hfirst]
      simp [contextGet, memoUse, entryOf, mlookup, freshValue, hlt]
    · rw [hfirst]
      simp [contextGet, memoUse, entryOf, mlookup, freshValue, hlt]

/-- Witness for C3 (amended) at concrete inputs: a failing fetcher leaves
an empty cache unchanged; a failed settle delivers the failure to both
waiters; and the concrete failed context resolution short-circuits on its
second call. -/
theorem memo_failure_not_cached_witness :
    memoUse ([] : MemoState Nat) 0 1000 "k" (Except.error 7) = ([], Except.error 7, true) ∧
    (settleFailure [("k", ({ value := none, pending := some [1, 2] } : Entry Nat))] "k").2
      = [1, 2] ∧
    (contextGet (contextGet [] 0 2000 failingCtxSdk "spotify:playlist:abc").1 1000 2000
        failingCtxSdk "spotify:playlist:abc").2.2 = false := by
  have h := memo_failure_not_cached_but_context_caches_empty
  refine ⟨h.1 Nat Nat [] 0 1000 "k" 7 rfl,
    (h.2.1 Nat [("k", { value := none, pending := some [1, 2] })] "k" [1, 2] (by decide)).1,
    (h.2.2 failingCtxSdk "spotify:playlist:abc" 500 2000 1000 (by decide) rfl
      (by decide)).2.2.1⟩

/-- C4: while a session is established, a tick with zero connected clients
performs no fetch and emits nothing (it is the no-op tick), and a tick
with at least one connected client performs the fetch and, when the fetch
succeeds, emits the result to all connected clients. -/
theorem tick_audience_gating (sdk : InfoSdk) (clients : List Nat) (st : MemoState Ctx)
    (now ttl : Nat) :
    (clients = [] → tick (some sdk) clients st now ttl = (st, noopTick)) ∧
    (clients ≠ [] →
      (tick (some sdk) clients st now ttl).2.fetched = true ∧
      ((tick (some sdk) clients st now ttl).2.failed = false →
        (tick (some sdk) clients st now ttl).2.emittedTo = clients)) := by
  constructor
  · rintro rfl
    simp [tick]
  · intro hc
    have hlen : 0 < clients.length := by
      cases clients with
      | nil => exact absurd rfl hc
      | cons a l => simp
    rcases hinfo : infoGet st now ttl sdk with ⟨res, calls, keys⟩
    cases res with
    | ok pr =>
        rcases pr with ⟨st2, resp⟩
        simp [tick, hlen, hinfo]
    | error err =>
        simp [tick, hlen, hinfo]

/-- Witness for C4 at concrete inputs: an empty audience makes the tick a
no-op; an audience of one client makes it fetch and emit to that client. -/
theorem tick_audience_gating_witness :
    tick (some sampleInfoSdk) [] [] 0 2000 = ([], noopTick) ∧
    (tick (some sampleInfoSdk) [7] [] 0 2000).2.fetched = true ∧
    (tick (some sampleInfoSdk) [7] [] 0 2000).2.emittedTo = [7] := by
  have h0 := (tick_audience_gating sampleInfoSdk [] [] 0 2000).1 rfl
  have h1 := (tick_audience_gating sampleInfoSdk [7] [] 0 2000).2 (by decide)
  exact ⟨h0, h1.1, h1.2 (by decide)⟩

/-- C5: a scheduler tick executed while the session slot is null is a
silent no-op: it returns without fetching, without emitting, and without
raising (the no-op tick result carries `fetched = false`,
`emittedTo = []` and `failed = false`), and it leaves the cache state
untouched. -/
theorem tick_no_session_noop (clients : List Nat) (st : MemoState Ctx) (now ttl : Nat) :
    tick none clients st now ttl = (st, noopTick) := rfl

/-- C6: the polling loop never terminates on a failed tick — for every
environment, including ones whose ticks fail, running the loop for n
scheduled ticks executes all n of them (the trace has length n) and
leaves the loop running, because the failure is caught at the tick
boundary. -/
theorem scheduler_survives_failures (sdkEnv : Nat → Option InfoSdk)
    (clientsEnv : Nat → List Nat) (ttl i n : Nat) (st : MemoState Ctx) :
    (schedulerRun sdkEnv clientsEnv ttl i n st).2.2 = LoopStatus.running ∧
    (schedulerRun sdkEnv clientsEnv ttl i n st).2.1.length = n := by
  induction n generalizing i st with
  | zero => exact ⟨rfl, rfl⟩
  | succ m ih =>
      simp only [schedulerRun, loopSurvives]
      refine ⟨(ih (i + 1) _).1, ?_⟩
      simp [(ih (i + 1) _).2]

/-- C7 counterexample: the run options do not recognize `pollIntervalMs` —
passing it leaves the scheduler at the default cadence 5000 rather than
the requested 100 — nor `cacheTtlMs`; the recognized cadence option is
`centralisedPollingTimer`. -/
theorem config_pollIntervalMs_not_recognized_cex :
    runPollingConfig [("pollIntervalMs", JsVal.nat 100)] = some (JsVal.nat 5000) ∧
    ¬ runPollingConfig [("pollIntervalMs", JsVal.nat 100)] = some (JsVal.nat 100) ∧
    objGet DEFAULT_OPTS "pollIntervalMs" = none ∧
    objGet DEFAULT_OPTS "cacheTtlMs" = none ∧
    runPollingConfig [("centralisedPollingTimer", JsVal.nat 100)] = some (JsVal.nat 100) := by
  decide

/-- C7 (amended): the configuration surface of the API core recognizes
`centralisedPolling` (boolean, default true — when falsy no polling loop
is started, when truthy the loop runs) and `centralisedPollingTimer` (the
scheduler cadence, default 5000 milliseconds). -/
theorem config_centralised_polling (opts : JsObj) :
    (truthy (optionsGet opts "centralisedPolling") = false →
      runPollingConfig opts = none) ∧
    (truthy (optionsGet opts "centralisedPolling") = true →
      runPollingConfig opts = optionsGet opts "centralisedPollingTimer") ∧
    (objGet opts "centralisedPollingTimer" = none →
      optionsGet opts "centralisedPollingTimer" = some (JsVal.nat 5000)) ∧
    (objGet opts "centralisedPolling" = none →
      truthy (optionsGet opts "centralisedPolling") = true) := by
  refine ⟨?_, ?_, ?_, ?_⟩
  · intro h
    simp [runPollingConfig, h]
  · intro h
    simp [runPollingConfig, h]
  · intro h
    simp only [optionsGet, h]
    decide
  · intro h
    simp only [optionsGet, h]
    decide

/-- Witness for C7 (amended) at concrete inputs: `centralisedPolling:
false` starts no loop; the empty options start the loop at cadence 5000. -/
theorem config_centralised_polling_witness :
    runPollingConfig [("centralisedPolling", JsVal.bool false)] = none ∧
    runPollingConfig [] = some (JsVal.nat 5000) := by
  have h1 := (config_centralised_polling [("centralisedPolling", JsVal.bool false)]).1
    (by decide)
  have h2 := config_centralised_polling ([] : JsObj)
  exact ⟨h1, by rw [h2.2.1 (by decide)]; exact h2.2.2.1 rfl⟩

/-- C8: whenever the session slot is null, every request through the /api
mount is answered by `sdkProtect` with `{error: true, message:
UNAUTHENTICATED}`, and the route handler (hence any provider operation,
which only happens inside route handlers) is not invoked. -/
theorem api_unauthenticated_gate (handler : Req → ApiResponse) (req : Req) :
    apiMount none handler req = (unauthenticatedResponse, false) := rfl

/-- C10: every response the /api/health route handler actually produces
has `authenticated = true`: the handler only runs when `sdkProtect` let
the request through, which requires the attached `req.sdk` to be non-null,
making the `authenticated: false` branch unreachable. -/
theorem health_authenticated_always_true (sdkCurrent : Option Sdk) (req : Req)
    (h : (apiMount sdkCurrent healthHandler req).2 = true) :
    (apiMount sdkCurrent healthHandler req).1.authenticated = some true := by
  cases sdkCurrent with
  | none => simp [apiMount, attachSdk, sdkProtect] at h
  | some s => simp [apiMount, attachSdk, sdkProtect, healthHandler]

/-- Witness for C10 at a concrete input: with a session present the health
handler runs and reports `authenticated = true`. -/
theorem health_authenticated_always_true_witness :
    (apiMount (some ()) healthHandler { sdk := none }).2 = true ∧
    (apiMount (some ()) healthHandler { sdk := none }).1.authenticated = some true := by
  exact ⟨rfl, health_authenticated_always_true (some ()) { sdk := none } rfl⟩

/-- C9: `queue.add` returns `{success: false}` without calling
`addItemToPlaybackQueue` when some item of the user's current queue
already has the URI, and otherwise calls `addItemToPlaybackQueue(uri)`
exactly once and returns `{success: true}`. -/
theorem queue_add_dedup (queue : List QueueItem) (uri : String) :
    ((∃ item ∈ queue, item.uri = uri) →
      queueAdd queue uri = { success := false, addCalls := [] }) ∧
    ((∀ item ∈ queue, item.uri ≠ uri) →
      queueAdd queue uri = { success := true, addCalls := [uri] }) := by
  constructor
  · intro h
    have hany : queue.any (fun item => item.uri == uri) = true := by
      rcases h with ⟨it, hmem, heq⟩
      exact List.any_eq_true.mpr ⟨it, hmem, by simp [heq]⟩
    simp [queueAdd, hany]
  · intro h
    have hany : queue.any (fun item => item.uri == uri) = false := by
      rw [List.any_eq_false]
      intro it hmem
      simp [h it hmem]
    simp [queueAdd, hany]

/-- Witness for C9 at concrete inputs: adding a URI already queued is
refused with no provider call; adding a fresh URI calls the provider once. -/
theorem queue_add_dedup_witness :
    queueAdd [{ uri := "spotify:track:a" }] "spotify:track:a" =
      { success := false, addCalls := [] } ∧
    queueAdd [{ uri := "spotify:track:a" }] "spotify:track:b" =
      { success := true, addCalls := ["spotify:track:b"] } := by
  refine ⟨(queue_add_dedup _ _).1 ⟨{ uri := "spotify:track:a" }, by simp, rfl⟩,
    (queue_add_dedup _ _).2 (by decide)⟩

end Spotify
